import Mathlib

/-!
Verification of the bulk cross-page selection core of the Artworks data-table
component (`src/src/components/DataTable.tsx`).

The React component's state hooks are embedded as a `TableState` record, and
each handler (`fetchArtworks`, `prefetchPages`, `calculatePagesNeeded`,
`handleAutoSelect`, `onPage`, `onSelectionChange`) as a pure state transformer.
The remote artwork API is a parameter of type `Fetcher`: it maps a page number
and a page size to `some` response (an ordered record list plus the
`pagination.total` metadata) or to `none`, which models a network or parse
failure caught by the handler's `try`/`catch`.  Each transformer also returns
the number of network requests it issued, so cache-hit properties can be
stated.  JavaScript numbers used as counts, page numbers and offsets are
embedded as `Int` (all divisions below happen on nonnegative operands, where
Lean's euclidean `/` agrees with `Math.floor` of the JS division).
-/

namespace ArtTable

/-- One normalized catalog record, after the `.map` in the fetch handlers:
the seven fields the component keeps (`interface Artworks`). Missing / `null`
JSON fields are `none`. -/
structure Artwork where
  id : Option String
  title : Option String
  place_of_origin : Option String
  artist_display : Option String
  inscriptions : Option String
  date_start : Option Int
  date_end : Option Int
deriving DecidableEq

/-- One raw item of the API response body (`data.data[i]`).  It carries the
seven fields the component reads plus an extra field (`api_link`) standing for
the many response fields the normalization drops. -/
structure ApiItem where
  id : Option String
  title : Option String
  place_of_origin : Option String
  artist_display : Option String
  inscriptions : Option String
  date_start : Option Int
  date_end : Option Int
  api_link : Option String
deriving DecidableEq

/-- A parsed API response: the record list `data.data` and the authoritative
total record count `data.pagination.total`. -/
structure ApiResponse where
  data : List ApiItem
  total : Nat
deriving DecidableEq

/-- The normalization of one item, `item => ({ id: item.id, ... })`. -/
def mapArtwork (item : ApiItem) : Artwork :=
  { id := item.id
    title := item.title
    place_of_origin := item.place_of_origin
    artist_display := item.artist_display
    inscriptions := item.inscriptions
    date_start := item.date_start
    date_end := item.date_end }

/-- `data.data.map(item => ({...}))`: normalization of a whole response body. -/
def mapData (items : List ApiItem) : List Artwork :=
  items.map mapArtwork

/-- The `pageCache` React state: page number to cached record list,
`Record<number, Artworks[]>` (absent key = `none`). -/
abbrev PageCache := Int → Option (List Artwork)

/-- The remote source: page number and page size to a parsed response, or
`none` for a network / parse failure. -/
abbrev Fetcher := Int → Int → Option ApiResponse

/-- The component's state hooks. -/
structure TableState where
  artworks : List Artwork
  selectedArtworks : List Artwork
  loading : Bool
  first : Int
  rows : Int
  totalRecords : Nat
  pageCache : PageCache
  isSelecting : Bool
  selectCount : Option Int

/-- `setPageCache(prev => ({ ...prev, [page]: val }))`: insert one key. -/
def cacheInsert (cache : PageCache) (page : Int) (val : List Artwork) : PageCache :=
  fun q => if q = page then some val else cache q

/-- `fetchArtworks(page, pageSize)`: cache hit returns the cached page with no
request; otherwise one request is issued; on success the normalized records
are cached and displayed and `totalRecords` is updated; on failure only the
error is logged and `loading` is cleared.  The second component counts the
network requests issued (0 or 1). -/
def fetchArtworks (net : Fetcher) (s : TableState) (page pageSize : Int) :
    TableState × Nat :=
  match s.pageCache page with
  | some cached => ({ s with artworks := cached, loading := false }, 0)
  | none =>
    match net page pageSize with
    | some resp =>
      ({ s with pageCache := cacheInsert s.pageCache page (mapData resp.data)
                artworks := mapData resp.data
                totalRecords := resp.total
                loading := false }, 1)
    | none => ({ s with loading := false }, 1)

/-- The result one prefetch task stores in `newCache` for its page: the cached
list on a cache hit, otherwise the normalized fetch result, or `none` when the
fetch failed (the task stores nothing). -/
def taskResult (net : Fetcher) (cache : PageCache) (rows : Int) (p : Int) :
    Option (List Artwork) :=
  match cache p with
  | some l => some l
  | none => (net p rows).map (fun resp => mapData resp.data)

/-- The `newCache` object built by `prefetchPages(pageNumbers)` once all of
its concurrent tasks have settled: each requested page maps to its task's
result, every other key is absent.  (`runPrefetchTasks` below replays the
tasks in an explicit completion order; it always yields this map.) -/
def prefetchNewCache (net : Fetcher) (cache : PageCache) (rows : Int)
    (pageNums : List Int) : PageCache :=
  fun p => if p ∈ pageNums then taskResult net cache rows p else none

/-- `{ ...prev, ...newCache }`: keys of `extra` override `base`. -/
def mergeCache (base extra : PageCache) : PageCache :=
  fun p =>
    match extra p with
    | some l => some l
    | none => base p

/-- Number of network requests `prefetchPages` issues: one per requested page
that is not already cached (failed requests still count). -/
def prefetchCalls (cache : PageCache) (pageNums : List Int) : Nat :=
  pageNums.countP (fun p => (cache p).isNone)

/-- `prefetchPages(pageNumbers)`: the state after
`setPageCache(prev => ({ ...prev, ...newCache }))`, the returned `newCache`,
and the number of requests issued.  `totalRecords`, `artworks`, `loading` are
not touched by this handler. -/
def prefetchPages (net : Fetcher) (s : TableState) (pageNums : List Int) :
    (TableState × PageCache) × Nat :=
  (({ s with
        pageCache :=
          mergeCache s.pageCache (prefetchNewCache net s.pageCache s.rows pageNums) },
      prefetchNewCache net s.pageCache s.rows pageNums),
    prefetchCalls s.pageCache pageNums)

/-- Replay of the concurrent prefetch tasks writing into the (initially empty)
`newCache` object in an explicit completion order: later writes override
earlier ones.  Used to state that the arrival order does not matter. -/
def runPrefetchTasks (net : Fetcher) (cache : PageCache) (rows : Int)
    (order : List Int) : PageCache :=
  order.foldl
    (fun acc p => fun q => if q = p then taskResult net cache rows p else acc q)
    (fun _ => none)

/-- The `while (remaining > 0) { pages.push(page); remaining -= rows; page++ }`
loop of `calculatePagesNeeded`, with explicit fuel: `none` means the loop has
not finished within `fuel` iterations (in particular, for `rows ≤ 0` and a
positive count the loop of the source never finishes). -/
def pagesLoopF (rows : Int) : Nat → Int → Int → Option (List Int)
  | 0, remaining, _ => if remaining ≤ 0 then some [] else none
  | fuel + 1, remaining, page =>
    if remaining ≤ 0 then some []
    else (pagesLoopF rows fuel (remaining - rows) (page + 1)).map (fun l => page :: l)

/-- `calculatePagesNeeded(count, currentPage)` (the planner).  `count.toNat`
iterations of fuel suffice whenever `rows ≥ 1`; the `getD []` default is never
hit in that case (`pagesLoopF` keeps the diverging `rows ≤ 0` case visible). -/
def calculatePagesNeeded (rows : Int) (count : Int) (currentPage : Int) : List Int :=
  (pagesLoopF rows count.toNat count currentPage).getD []

/-- `fetchedData[pageNum] || pageCache[pageNum] || []` in the assembly loop of
`handleAutoSelect` (a fetched array, even an empty one, wins over the cache). -/
def lookupPageData (fetched cache : PageCache) (p : Int) : List Artwork :=
  match fetched p with
  | some l => l
  | none =>
    match cache p with
    | some l => l
    | none => []

/-- The assembly loop of `handleAutoSelect`: walk the planned pages in order,
take `Math.min(remaining, pageData.length)` records from the front of each
page, and stop once `remaining` reaches zero or the plan is exhausted. -/
def assembleLoop (fetched cache : PageCache) : List Int → Int → List Artwork
  | [], _ => []
  | p :: ps, remaining =>
    (lookupPageData fetched cache p).take
        (min remaining ((lookupPageData fetched cache p).length : Int)).toNat ++
      (if remaining - min remaining ((lookupPageData fetched cache p).length : Int) ≤ 0
        then []
        else assembleLoop fetched cache ps
          (remaining - min remaining ((lookupPageData fetched cache p).length : Int)))

/-- The tail of `handleAutoSelect` after the prefetch settled, parametrized by
the `newCache` the prefetch produced: merge the cache, assemble the selection
(reading `fetchedData` first, then the pre-call `pageCache` closure value),
replace `selectedArtworks`, and clear the busy flag (the `finally` block). -/
def bulkSelectCore (s : TableState) (c : Int) (pages : List Int)
    (newCache : PageCache) : TableState :=
  { s with
      pageCache := mergeCache s.pageCache newCache
      selectedArtworks := assembleLoop newCache s.pageCache pages c
      isSelecting := false }

/-- `handleAutoSelect()`: no-op when `selectCount` is absent or `≤ 0`
(`!selectCount || selectCount <= 0`); otherwise plan from
`Math.floor(first / rows) + 1`, prefetch the planned pages, and assemble.
The second component counts the network requests issued. -/
def handleAutoSelect (net : Fetcher) (s : TableState) : TableState × Nat :=
  match s.selectCount with
  | none => (s, 0)
  | some c =>
    if c ≤ 0 then (s, 0)
    else
      (bulkSelectCore s c
          (calculatePagesNeeded s.rows c (s.first / s.rows + 1))
          (prefetchNewCache net s.pageCache s.rows
            (calculatePagesNeeded s.rows c (s.first / s.rows + 1))),
        prefetchCalls s.pageCache
          (calculatePagesNeeded s.rows c (s.first / s.rows + 1)))

/-- A `DataTablePageEvent`: the three fields `onPage` reads, each possibly
absent (the `??` defaults in the handler). -/
structure PageEvent where
  page : Option Int
  first : Option Int
  rows : Option Int

/-- `onPage(event)`: update `first` and `rows`, then fetch page
`(event.page ?? 0) + 1` at the new page size. -/
def onPage (net : Fetcher) (s : TableState) (e : PageEvent) : TableState × Nat :=
  fetchArtworks net
    { s with first := e.first.getD 0, rows := e.rows.getD 12 }
    (e.page.getD 0 + 1) (e.rows.getD 12)

/-- `onSelectionChange(e)`: `setSelectedArtworks(e.value || [])`. -/
def onSelectionChange (s : TableState) (v : Option (List Artwork)) : TableState :=
  { s with selectedArtworks := v.getD [] }

/-- A remote source serving a fixed fully-available dataset `ds`: page `p` at
page size `limit` is the `p`-th chunk of `ds`, and `pagination.total` is the
dataset length.  Chunks past the end of the dataset are empty. -/
def fullNet (ds : List ApiItem) : Fetcher :=
  fun p limit =>
    some { data := (ds.drop ((p - 1) * limit).toNat).take limit.toNat
           total := ds.length }

/-- Reference prefix-taking over a list of page contents, following the spec's
words for the Bulk Selector walk (take the lesser of the records still needed
and the records available on each page, in plan order). -/
def takeAcrossN : Nat → List (List Artwork) → List Artwork
  | _, [] => []
  | c, d :: ds => if c = 0 then [] else d.take c ++ takeAcrossN (c - min c d.length) ds

/-- A sample normalized-absent API item, distinguished by its start year. -/
def mkItem (n : Nat) : ApiItem :=
  { id := none, title := none, place_of_origin := none, artist_display := none,
    inscriptions := none, date_start := some (n : Int), date_end := none, api_link := none }

/-- A 24-record dataset: two full pages of 12 and nothing after. -/
def ds24 : List ApiItem := (List.range 24).map mkItem

/-- A 3-record dataset for small witnesses. -/
def ds3 : List ApiItem := (List.range 3).map mkItem

/-- A remote source that always fails (network unreachable). -/
def netFail : Fetcher := fun _ _ => none

/-- Initial component state: nothing cached, nothing selected, page size 12. -/
def s0 : TableState :=
  { artworks := [], selectedArtworks := [], loading := false, first := 0, rows := 12,
    totalRecords := 0, pageCache := fun _ => none, isSelecting := false, selectCount := none }

/-- A sample normalized record. -/
def aw7 : Artwork := mapArtwork (mkItem 7)

/-- A cache holding page 1 only. -/
def cache1 : PageCache := fun p => if p = 1 then some [aw7] else none

/-- State with page 1 cached and a bulk request for 20 rows pending. -/
def s1 : TableState := { s0 with pageCache := cache1, selectCount := some 20 }

/-- State displaying cached page 1. -/
def sPage1 : TableState := { s0 with artworks := [aw7], pageCache := cache1 }

/-- A remote source whose every response reports 999 total records. -/
def net999 : Fetcher := fun _ _ => some { data := [mkItem 7], total := 999 }

/-- The 24-record source, except page 2 is unreachable. -/
def netFailPage2 : Fetcher := fun p limit => if p = 2 then none else fullNet ds24 p limit

/-- Bulk request for 20 rows made from page 2 of the 24-record dataset. -/
def sC1 : TableState := { s0 with first := 12, totalRecords := 24, selectCount := some 20 }

/-- Bulk request for 2 rows at page size 2 over the 3-record dataset. -/
def sW : TableState := { s0 with rows := 2, selectCount := some 2 }

/- ### Planner lemmas -/

/-- `count` iterations of fuel are enough when the page size is positive. -/
lemma le_rows_mul_toNat (rows c : Int) (hrows : 1 ≤ rows) :
    c ≤ rows * (c.toNat : Int) := by
  rcases le_or_lt c 0 with hc | hc
  · have h0 : (0 : Int) ≤ (c.toNat : Int) := Int.ofNat_nonneg _
    have := mul_nonneg (show (0 : Int) ≤ rows by omega) h0
    omega
  · have he : (c.toNat : Int) = c := by omega
    rw [he]
    exact le_mul_of_one_le_left (by omega) hrows

/-- Closed form of the planning loop: with enough fuel and a positive page
size it returns the `⌈r / rows⌉` consecutive page numbers from `p`. -/
lemma pagesLoopF_spec (rows : Int) (hrows : 1 ≤ rows) :
    ∀ (n : Nat) (r p : Int), r ≤ rows * (n : Int) →
      pagesLoopF rows n r p
        = some ((List.range ((r - 1) / rows + 1).toNat).map (fun (i : Nat) => p + (i : Int))) := by
  intro n
  induction n with
  | zero =>
    intro r p h
    have hr0 : r ≤ 0 := by simpa using h
    have hneg : (r - 1) / rows < 0 := Int.ediv_neg' (by omega) (by omega)
    have h0 : ((r - 1) / rows + 1).toNat = 0 := by omega
    simp [pagesLoopF, hr0, h0]
  | succ n ih =>
    intro r p h
    by_cases hr0 : r ≤ 0
    · have hneg : (r - 1) / rows < 0 := Int.ediv_neg' (by omega) (by omega)
      have h0 : ((r - 1) / rows + 1).toNat = 0 := by omega
      simp [pagesLoopF, hr0, h0]
    · push_neg at hr0
      have h' : r - rows ≤ rows * (n : Int) := by
        have hc : ((n + 1 : Nat) : Int) = (n : Int) + 1 := by push_cast; ring
        have hmul : rows * ((n : Int) + 1) = rows * (n : Int) + rows := by ring
        rw [hc, hmul] at h
        omega
      have hdiv : (r - 1) / rows = (r - rows - 1) / rows + 1 := by
        have h2 := Int.add_mul_ediv_right (r - rows - 1) 1 (show rows ≠ 0 by omega)
        rw [one_mul] at h2
        rw [show r - 1 = r - rows - 1 + rows by ring]
        exact h2
      have hge : -1 ≤ (r - rows - 1) / rows := by
        have hle : -1 * rows ≤ r - rows - 1 := by omega
        have h2 := Int.ediv_le_ediv (show (0 : Int) < rows by omega) hle
        have h3 : -1 * rows / rows = -1 := Int.mul_ediv_cancel (-1) (by omega)
        omega
      have hK : ((r - 1) / rows + 1).toNat = ((r - rows - 1) / rows + 1).toNat + 1 := by
        omega
      rw [pagesLoopF, if_neg (by omega), ih (r - rows) (p + 1) h']
      apply congrArg some
      rw [hK, List.range_succ_eq_map, List.map_cons, List.map_map]
      refine List.cons_eq_cons.mpr ⟨by simp, ?_⟩
      apply List.map_congr_left
      intro i _
      simp only [Function.comp_apply]
      push_cast
      ring

/-- Closed form of the planner for a positive page size. -/
lemma calculatePagesNeeded_spec (rows c page : Int) (hrows : 1 ≤ rows) :
    calculatePagesNeeded rows c page
      = (List.range ((c - 1) / rows + 1).toNat).map (fun (i : Nat) => page + (i : Int)) := by
  rw [calculatePagesNeeded,
    pagesLoopF_spec rows hrows c.toNat c page (le_rows_mul_toNat rows c hrows)]
  rfl

/-- A nonpositive desired count yields the empty plan. -/
lemma calculatePagesNeeded_nonpos (rows c page : Int) (hc : c ≤ 0) :
    calculatePagesNeeded rows c page = [] := by
  have h0 : c.toNat = 0 := by omega
  simp [calculatePagesNeeded, h0, pagesLoopF, hc]

/-- Claim C2: for every `desiredCount > 0`, `startPage ≥ 1` and
`pageSize ≥ 1`, `calculatePagesNeeded` returns the consecutive page numbers
`startPage, …, startPage + ⌈desiredCount/pageSize⌉ - 1`; a nonpositive count
yields the empty plan; and the three concrete planner examples hold. -/
theorem c2_planner_correct (rows c page : Int) (hrows : 1 ≤ rows)
    (hpage : 1 ≤ page) (hc : 0 < c) :
    calculatePagesNeeded rows c page
        = (List.range ((c - 1) / rows + 1).toNat).map (fun (i : Nat) => page + (i : Int))
      ∧ (∀ c2 : Int, c2 ≤ 0 → calculatePagesNeeded rows c2 page = [])
      ∧ calculatePagesNeeded 12 25 1 = [1, 2, 3]
      ∧ calculatePagesNeeded 12 12 1 = [1]
      ∧ calculatePagesNeeded 12 0 1 = [] := by
  refine ⟨calculatePagesNeeded_spec rows c page hrows,
    fun c2 hc2 => calculatePagesNeeded_nonpos rows c2 page hc2,
    by decide, by decide, by decide⟩

/-- Witness for C2 at `pageSize = 12`, `desiredCount = 25`, `startPage = 1`. -/
theorem c2_planner_correct_witness :
    calculatePagesNeeded 12 25 1
        = (List.range (((25 : Int) - 1) / 12 + 1).toNat).map (fun (i : Nat) => 1 + (i : Int))
      ∧ (∀ c2 : Int, c2 ≤ 0 → calculatePagesNeeded 12 c2 1 = [])
      ∧ calculatePagesNeeded 12 25 1 = [1, 2, 3]
      ∧ calculatePagesNeeded 12 12 1 = [1]
      ∧ calculatePagesNeeded 12 0 1 = [] :=
  c2_planner_correct 12 25 1 (by decide) (by decide) (by decide)

/-- Claim C10: with enough fuel the planning loop terminates whenever
`rows ≥ 1` (so the recursion is well-founded on the remaining count), for
`rows ≤ 0` and a positive count no amount of fuel finishes the loop, and the
running remaining-count strictly decreases exactly when `rows ≥ 1`. -/
theorem c10_planner_termination :
    (∀ (rows r p : Int), 1 ≤ rows → (pagesLoopF rows r.toNat r p).isSome = true)
      ∧ (∀ (rows : Int) (n : Nat) (r p : Int), rows ≤ 0 → 0 < r →
          pagesLoopF rows n r p = none)
      ∧ (∀ (rows remaining : Int), remaining - rows < remaining ↔ 1 ≤ rows) := by
  refine ⟨?_, ?_, ?_⟩
  · intro rows r p hrows
    rw [pagesLoopF_spec rows hrows r.toNat r p (le_rows_mul_toNat rows r hrows)]
    rfl
  · intro rows n
    induction n with
    | zero =>
      intro r p h0 hr
      rw [pagesLoopF, if_neg (by omega)]
    | succ n ih =>
      intro r p h0 hr
      rw [pagesLoopF, if_neg (by omega), ih (r - rows) (p + 1) h0 (by omega)]
      rfl
  · intro rows remaining
    omega

/-- Witness for C10: the loop finishes for `rows = 12`, `count = 25` and
returns `none` at every fuel for `rows = 0`, `count = 3`. -/
theorem c10_planner_termination_witness :
    (pagesLoopF 12 (Int.toNat 25) 25 1).isSome = true ∧ pagesLoopF 0 5 3 1 = none :=
  ⟨c10_planner_termination.1 12 25 1 (by decide),
    c10_planner_termination.2.1 0 5 3 1 (by decide) (by decide)⟩

/- ### Cache-preservation lemmas -/

/-- `fetchArtworks` never removes or changes an existing cache entry. -/
lemma fetch_cache_preserve (net : Fetcher) (s : TableState) (page pageSize p : Int)
    (l : List Artwork) (h : s.pageCache p = some l) :
    ((fetchArtworks net s page pageSize).1).pageCache p = some l := by
  unfold fetchArtworks
  cases hpg : s.pageCache page with
  | some cached => exact h
  | none =>
    cases net page pageSize with
    | some resp =>
      simp only [cacheInsert]
      split
      · rename_i heq
        rw [heq] at h
        rw [h] at hpg
        cases hpg
      · exact h
    | none => exact h

/-- Merging the prefetch `newCache` into the cache never removes or changes an
existing entry: for a requested cached page the task stored the cached value. -/
lemma merge_prefetch_preserve (net : Fetcher) (cache : PageCache) (rows : Int)
    (pageNums : List Int) (p : Int) (l : List Artwork) (h : cache p = some l) :
    mergeCache cache (prefetchNewCache net cache rows pageNums) p = some l := by
  by_cases hmem : p ∈ pageNums
  · simp [mergeCache, prefetchNewCache, taskResult, hmem, h]
  · simp [mergeCache, prefetchNewCache, hmem, h]

/-- Claim C9: the PageCache is append-only: across `fetchArtworks`,
`prefetchPages`, `handleAutoSelect` and page navigation (`onPage`), every page
already cached stays cached with exactly the same record list. -/
theorem c9_cache_append_only (net : Fetcher) (s : TableState) :
    (∀ (page pageSize p : Int) (l : List Artwork), s.pageCache p = some l →
        ((fetchArtworks net s page pageSize).1).pageCache p = some l)
      ∧ (∀ (pageNums : List Int) (p : Int) (l : List Artwork), s.pageCache p = some l →
          ((prefetchPages net s pageNums).1.1).pageCache p = some l)
      ∧ (∀ (p : Int) (l : List Artwork), s.pageCache p = some l →
          ((handleAutoSelect net s).1).pageCache p = some l)
      ∧ (∀ (e : PageEvent) (p : Int) (l : List Artwork), s.pageCache p = some l →
          ((onPage net s e).1).pageCache p = some l) := by
  refine ⟨?_, ?_, ?_, ?_⟩
  · intro page pageSize p l h
    exact fetch_cache_preserve net s page pageSize p l h
  · intro pageNums p l h
    exact merge_prefetch_preserve net s.pageCache s.rows pageNums p l h
  · intro p l h
    cases hsc : s.selectCount with
    | none => simpa [handleAutoSelect, hsc] using h
    | some c =>
      by_cases hc : c ≤ 0
      · simpa [handleAutoSelect, hsc, hc] using h
      · simp only [handleAutoSelect, hsc, if_neg hc, bulkSelectCore]
        exact merge_prefetch_preserve net s.pageCache s.rows _ p l h
  · intro e p l h
    exact fetch_cache_preserve net _ _ _ p l h

/-- Witness for C9: page 1's cached records survive a navigation fetch, a
prefetch, a bulk select and a page event against a failing network. -/
theorem c9_cache_append_only_witness :
    ((fetchArtworks netFail s1 2 12).1).pageCache 1 = some [aw7]
      ∧ ((prefetchPages netFail s1 [1, 2]).1.1).pageCache 1 = some [aw7]
      ∧ ((handleAutoSelect netFail s1).1).pageCache 1 = some [aw7]
      ∧ ((onPage netFail s1 ⟨some 1, some 12, some 12⟩).1).pageCache 1 = some [aw7] := by
  have h := c9_cache_append_only netFail s1
  exact ⟨h.1 2 12 1 [aw7] rfl, h.2.1 [1, 2] 1 [aw7] rfl, h.2.2.1 1 [aw7] rfl,
    h.2.2.2 ⟨some 1, some 12, some 12⟩ 1 [aw7] rfl⟩

/-- Claim C4: with `selectCount` absent or nonpositive, `handleAutoSelect`
returns with the whole state unchanged (selection, cache, busy flag included)
and issues no network request. -/
theorem c4_invalid_count_noop (net : Fetcher) (s : TableState)
    (h : s.selectCount = none ∨ ∃ c, s.selectCount = some c ∧ c ≤ 0) :
    handleAutoSelect net s = (s, 0) := by
  rcases h with h | ⟨c, h, hc⟩
  · simp [handleAutoSelect, h]
  · simp [handleAutoSelect, h, hc]

/-- Witness for C4 at the initial state (no count entered). -/
theorem c4_invalid_count_noop_witness : handleAutoSelect netFail s0 = (s0, 0) :=
  c4_invalid_count_noop netFail s0 (Or.inl rfl)

/-- Counterexample to C7 as stated: with a failing network, two sequential
`fetchArtworks` calls for the uncached page 1 issue two network requests, not
exactly one. -/
theorem c7_two_calls_counterexample :
    ¬ ((fetchArtworks netFail s0 1 12).2
          + (fetchArtworks netFail (fetchArtworks netFail s0 1 12).1 1 12).2 = 1)
      ∧ (fetchArtworks netFail s0 1 12).2
          + (fetchArtworks netFail (fetchArtworks netFail s0 1 12).1 1 12).2 = 2 := by
  exact ⟨by decide, by decide⟩

/-- Claim C7 (amended): a cached page is returned without network access; and
for an uncached page whose fetch succeeds, two sequential calls perform
exactly one network access in total and both end displaying the same
normalized page content.  (When the first fetch fails the page stays uncached,
so the second call retries over the network — the C5 retry behavior.) -/
theorem c7_cache_idempotence (net : Fetcher) (s : TableState) (p pageSize : Int) :
    (∀ l, s.pageCache p = some l →
        fetchArtworks net s p pageSize = ({ s with artworks := l, loading := false }, 0))
      ∧ (∀ resp, s.pageCache p = none → net p pageSize = some resp →
          (fetchArtworks net s p pageSize).2 = 1
          ∧ (fetchArtworks net (fetchArtworks net s p pageSize).1 p pageSize).2 = 0
          ∧ (fetchArtworks net s p pageSize).1.artworks = mapData resp.data
          ∧ (fetchArtworks net (fetchArtworks net s p pageSize).1 p pageSize).1.artworks
              = mapData resp.data) := by
  constructor
  · intro l h
    simp [fetchArtworks, h]
  · intro resp h hn
    simp [fetchArtworks, h, hn, cacheInsert]

/-- Witness for C7 (amended): cache hit on page 1 of `s1`; then a miss-fetch
pair against the 3-record source from the empty state. -/
theorem c7_cache_idempotence_witness :
    fetchArtworks netFail s1 1 12 = ({ s1 with artworks := [aw7], loading := false }, 0)
      ∧ ((fetchArtworks (fullNet ds3) s0 1 12).2 = 1
          ∧ (fetchArtworks (fullNet ds3) (fetchArtworks (fullNet ds3) s0 1 12).1 1 12).2 = 0
          ∧ (fetchArtworks (fullNet ds3) s0 1 12).1.artworks = mapData ds3
          ∧ (fetchArtworks (fullNet ds3)
                (fetchArtworks (fullNet ds3) s0 1 12).1 1 12).1.artworks = mapData ds3) :=
  ⟨(c7_cache_idempotence netFail s1 1 12).1 [aw7] rfl,
    (c7_cache_idempotence (fullNet ds3) s0 1 12).2 { data := ds3, total := 3 } rfl
      (by decide)⟩

/-- Counterexample to C5 as stated: a failing fetch of page 2 while page 1 is
displayed leaves the displayed rows unchanged and nonempty — `fetchArtworks`
does not produce an empty Page for the failed number. -/
theorem c5_fetch_failure_counterexample :
    (fetchArtworks netFail sPage1 2 12).1.artworks = [aw7]
      ∧ ¬ ((fetchArtworks netFail sPage1 2 12).1.artworks = []) := by
  exact ⟨by decide, by decide⟩

/-- Claim C5 (amended): a fetch failure leaves the PageCache unchanged for
that key (so a retry is possible) and does not crash; `fetchArtworks` leaves
the displayed rows and total unchanged rather than producing an empty page,
while in the prefetch path the failed page gets no `newCache` entry and the
bulk-selection consumer reads it as the empty page. -/
theorem c5_failure_handling (net : Fetcher) (s : TableState) (p pageSize : Int)
    (pageNums : List Int) (hcache : s.pageCache p = none)
    (hf : net p pageSize = none) (hfr : net p s.rows = none) :
    (fetchArtworks net s p pageSize).1.pageCache p = none
      ∧ (fetchArtworks net s p pageSize).1.artworks = s.artworks
      ∧ (fetchArtworks net s p pageSize).1.totalRecords = s.totalRecords
      ∧ prefetchNewCache net s.pageCache s.rows pageNums p = none
      ∧ (prefetchPages net s pageNums).1.1.pageCache p = none
      ∧ lookupPageData (prefetchNewCache net s.pageCache s.rows pageNums)
          s.pageCache p = [] := by
  have hnew : prefetchNewCache net s.pageCache s.rows pageNums p = none := by
    simp [prefetchNewCache, taskResult, hcache, hfr]
  refine ⟨?_, ?_, ?_, hnew, ?_, ?_⟩
  · simp [fetchArtworks, hcache, hf]
  · simp [fetchArtworks, hcache, hf]
  · simp [fetchArtworks, hcache, hf]
  · simp [prefetchPages, mergeCache, hnew, hcache]
  · simp [lookupPageData, hnew, hcache]

/-- Witness for C5 (amended): failing fetch of page 2 from `sPage1`. -/
theorem c5_failure_handling_witness :
    (fetchArtworks netFail sPage1 2 12).1.pageCache 2 = none
      ∧ (fetchArtworks netFail sPage1 2 12).1.artworks = sPage1.artworks
      ∧ (fetchArtworks netFail sPage1 2 12).1.totalRecords = sPage1.totalRecords
      ∧ prefetchNewCache netFail sPage1.pageCache sPage1.rows [2, 3] 2 = none
      ∧ (prefetchPages netFail sPage1 [2, 3]).1.1.pageCache 2 = none
      ∧ lookupPageData (prefetchNewCache netFail sPage1.pageCache sPage1.rows [2, 3])
          sPage1.pageCache 2 = [] :=
  c5_failure_handling netFail sPage1 2 12 [2, 3] rfl rfl rfl

/-- Counterexample to C3 as stated: a successful prefetch of uncached page 1
whose response reports 999 total records stores the normalized records in the
cache but leaves the authoritative total at 0 — `prefetchPages` never updates
the total record count. -/
theorem c3_prefetch_total_counterexample :
    (prefetchPages net999 s0 [1]).1.1.pageCache 1 = some (mapData [mkItem 7])
      ∧ (prefetchPages net999 s0 [1]).1.1.totalRecords = 0
      ∧ ¬ ((prefetchPages net999 s0 [1]).1.1.totalRecords = 999) := by
  exact ⟨by decide, by decide, by decide⟩

/-- Claim C3 (amended): a successful fetch of an uncached page stores the
normalized records in the PageCache keyed by that page on both paths;
`fetchArtworks` also updates the authoritative total from the response
metadata, but `prefetchPages` leaves the total record count unchanged. -/
theorem c3_fetch_stores_and_totals (net : Fetcher) (s : TableState)
    (page pageSize p : Int) (resp presp : ApiResponse) (pageNums : List Int) :
    (s.pageCache page = none → net page pageSize = some resp →
        (fetchArtworks net s page pageSize).1.pageCache page = some (mapData resp.data)
        ∧ (fetchArtworks net s page pageSize).1.totalRecords = resp.total)
      ∧ (s.pageCache p = none → p ∈ pageNums → net p s.rows = some presp →
          (prefetchPages net s pageNums).1.1.pageCache p = some (mapData presp.data)
          ∧ (prefetchPages net s pageNums).1.1.totalRecords = s.totalRecords) := by
  constructor
  · intro h hn
    simp [fetchArtworks, h, hn, cacheInsert]
  · intro h hmem hn
    constructor
    · simp [prefetchPages, mergeCache, prefetchNewCache, taskResult, h, hmem, hn]
    · simp [prefetchPages]

/-- Witness for C3 (amended): page 1 fetched from the 999-total source, first
via `fetchArtworks` (total becomes 999), then via `prefetchPages` from the
fresh state (total stays 0). -/
theorem c3_fetch_stores_and_totals_witness :
    ((fetchArtworks net999 s0 1 12).1.pageCache 1 = some (mapData [mkItem 7])
        ∧ (fetchArtworks net999 s0 1 12).1.totalRecords = 999)
      ∧ ((prefetchPages net999 s0 [1]).1.1.pageCache 1 = some (mapData [mkItem 7])
          ∧ (prefetchPages net999 s0 [1]).1.1.totalRecords = s0.totalRecords) :=
  ⟨(c3_fetch_stores_and_totals net999 s0 1 12 1 { data := [mkItem 7], total := 999 }
        { data := [mkItem 7], total := 999 } [1]).1 rfl rfl,
    (c3_fetch_stores_and_totals net999 s0 1 12 1 { data := [mkItem 7], total := 999 }
        { data := [mkItem 7], total := 999 } [1]).2 rfl (by decide) rfl⟩

/- ### Assembly lemmas -/

/-- With nothing left to take, the walk takes nothing. -/
lemma takeAcrossN_zero (ds : List (List Artwork)) : takeAcrossN 0 ds = [] := by
  cases ds <;> simp [takeAcrossN]

/-- Taking `min n length` elements is taking `n` elements. -/
lemma take_min_length {α : Type} (d : List α) (n : Nat) :
    d.take (min n d.length) = d.take n := by
  rcases le_total n d.length with h | h
  · rw [min_eq_left h]
  · rw [min_eq_right h, List.take_length, List.take_of_length_le h]

/-- The assembly loop of `handleAutoSelect` is the plan-order prefix walk over
the per-page data the lookup chain produces. -/
lemma assemble_eq_takeAcross (fetched cache : PageCache) :
    ∀ (pages : List Int) (c : Int), 0 < c →
      assembleLoop fetched cache pages c
        = takeAcrossN c.toNat (pages.map (lookupPageData fetched cache)) := by
  intro pages
  induction pages with
  | nil =>
    intro c hc
    simp [assembleLoop, takeAcrossN]
  | cons p ps ih =>
    intro c hc
    simp only [assembleLoop, List.map_cons, takeAcrossN]
    rw [if_neg (by omega : ¬ c.toNat = 0)]
    have h1 : (min c ((lookupPageData fetched cache p).length : Int)).toNat
        = min c.toNat (lookupPageData fetched cache p).length := by omega
    rw [h1, take_min_length]
    congr 1
    by_cases hle : c - min c ((lookupPageData fetched cache p).length : Int) ≤ 0
    · rw [if_pos hle]
      have h3 : c.toNat - min c.toNat (lookupPageData fetched cache p).length = 0 := by
        omega
      rw [h3, takeAcrossN_zero]
    · rw [if_neg hle]
      push_neg at hle
      rw [ih _ hle]
      have h4 : (c - min c ((lookupPageData fetched cache p).length : Int)).toNat
          = c.toNat - min c.toNat (lookupPageData fetched cache p).length := by omega
      rw [h4]

/-- What the completion-order replay holds at each key: the task result for
every requested page, nothing elsewhere. -/
lemma runPrefetchTasks_lookup (net : Fetcher) (cache : PageCache) (rows : Int) :
    ∀ (order : List Int) (acc : PageCache) (q : Int),
      order.foldl
          (fun acc2 p => fun q2 => if q2 = p then taskResult net cache rows p else acc2 q2)
          acc q
        = if q ∈ order then taskResult net cache rows q else acc q := by
  intro order
  induction order with
  | nil =>
    intro acc q
    simp
  | cons p ps ih =>
    intro acc q
    rw [List.foldl_cons, ih]
    by_cases hq : q ∈ ps
    · simp [hq]
    · by_cases hqp : q = p
      · subst hqp
        simp [hq]
      · simp [hq, hqp]

/-- Whatever order the concurrent prefetch tasks complete in, the `newCache`
they build is the canonical one. -/
lemma runPrefetchTasks_eq_newCache (net : Fetcher) (cache : PageCache) (rows : Int)
    (pageNums order : List Int) (hperm : order.Perm pageNums) :
    runPrefetchTasks net cache rows order = prefetchNewCache net cache rows pageNums := by
  funext q
  rw [runPrefetchTasks, runPrefetchTasks_lookup, prefetchNewCache]
  by_cases hq : q ∈ order
  · rw [if_pos hq, if_pos (hperm.mem_iff.mp hq)]
  · rw [if_neg hq, if_neg (fun hmem => hq (hperm.mem_iff.mpr hmem))]

/-- Claim C8: within one bulk select, replaying the prefetch tasks in any two
completion orders yields the same final state, and either equals the state
`handleAutoSelect` produces — the selection is assembled at planned positions
and is a deterministic function of the request and the cache contents. -/
theorem c8_order_independence (net : Fetcher) (s : TableState) (c : Int)
    (ord1 ord2 : List Int) (hsc : s.selectCount = some c) (hc : 0 < c)
    (h1 : ord1.Perm (calculatePagesNeeded s.rows c (s.first / s.rows + 1)))
    (h2 : ord2.Perm (calculatePagesNeeded s.rows c (s.first / s.rows + 1))) :
    bulkSelectCore s c (calculatePagesNeeded s.rows c (s.first / s.rows + 1))
        (runPrefetchTasks net s.pageCache s.rows ord1)
      = bulkSelectCore s c (calculatePagesNeeded s.rows c (s.first / s.rows + 1))
          (runPrefetchTasks net s.pageCache s.rows ord2)
      ∧ bulkSelectCore s c (calculatePagesNeeded s.rows c (s.first / s.rows + 1))
          (runPrefetchTasks net s.pageCache s.rows ord1)
        = (handleAutoSelect net s).1 := by
  rw [runPrefetchTasks_eq_newCache net s.pageCache s.rows _ ord1 h1,
    runPrefetchTasks_eq_newCache net s.pageCache s.rows _ ord2 h2]
  exact ⟨rfl, by simp [handleAutoSelect, hsc, if_neg (not_le.mpr hc)]⟩

/-- Witness for C8: the two-page plan of a 20-row bulk select, with responses
arriving in either order against the 24-record source. -/
theorem c8_order_independence_witness :
    bulkSelectCore s1 20 (calculatePagesNeeded s1.rows 20 (s1.first / s1.rows + 1))
        (runPrefetchTasks (fullNet ds24) s1.pageCache s1.rows [2, 1])
      = bulkSelectCore s1 20 (calculatePagesNeeded s1.rows 20 (s1.first / s1.rows + 1))
          (runPrefetchTasks (fullNet ds24) s1.pageCache s1.rows [1, 2])
      ∧ bulkSelectCore s1 20 (calculatePagesNeeded s1.rows 20 (s1.first / s1.rows + 1))
          (runPrefetchTasks (fullNet ds24) s1.pageCache s1.rows [2, 1])
        = (handleAutoSelect (fullNet ds24) s1).1 :=
  c8_order_independence (fullNet ds24) s1 20 [2, 1] [1, 2] rfl (by decide)
    (by decide) (by decide)

/-- Claim C6: in a bulk select whose plan contains a page that is uncached and
whose fetch fails, the busy flag still clears, the selection is the plan-order
prefix walk over the per-page available data, and the failed page's available
data is empty — so it contributes zero records without aborting the batch. -/
theorem c6_partial_failure_best_effort (net : Fetcher) (s : TableState) (c f : Int)
    (hsc : s.selectCount = some c) (hc : 0 < c)
    (hmem : f ∈ calculatePagesNeeded s.rows c (s.first / s.rows + 1))
    (hcache : s.pageCache f = none) (hnet : net f s.rows = none) :
    (handleAutoSelect net s).1.isSelecting = false
      ∧ (handleAutoSelect net s).1.selectedArtworks
          = takeAcrossN c.toNat
              ((calculatePagesNeeded s.rows c (s.first / s.rows + 1)).map
                (lookupPageData
                  (prefetchNewCache net s.pageCache s.rows
                    (calculatePagesNeeded s.rows c (s.first / s.rows + 1)))
                  s.pageCache))
      ∧ lookupPageData
          (prefetchNewCache net s.pageCache s.rows
            (calculatePagesNeeded s.rows c (s.first / s.rows + 1)))
          s.pageCache f = [] := by
  refine ⟨?_, ?_, ?_⟩
  · simp [handleAutoSelect, hsc, if_neg (not_le.mpr hc), bulkSelectCore]
  · simp only [handleAutoSelect, hsc, if_neg (not_le.mpr hc), bulkSelectCore]
    exact assemble_eq_takeAcross _ _ _ c hc
  · simp [lookupPageData, prefetchNewCache, taskResult, hmem, hcache, hnet]

/-- Witness for C6: page 2 of the plan `[1, 2]` fails while page 1 is cached. -/
theorem c6_partial_failure_best_effort_witness :
    (handleAutoSelect netFailPage2 s1).1.isSelecting = false
      ∧ (handleAutoSelect netFailPage2 s1).1.selectedArtworks
          = takeAcrossN (Int.toNat 20)
              ((calculatePagesNeeded s1.rows 20 (s1.first / s1.rows + 1)).map
                (lookupPageData
                  (prefetchNewCache netFailPage2 s1.pageCache s1.rows
                    (calculatePagesNeeded s1.rows 20 (s1.first / s1.rows + 1)))
                  s1.pageCache))
      ∧ lookupPageData
          (prefetchNewCache netFailPage2 s1.pageCache s1.rows
            (calculatePagesNeeded s1.rows 20 (s1.first / s1.rows + 1)))
          s1.pageCache 2 = [] :=
  c6_partial_failure_best_effort netFailPage2 s1 20 2 rfl (by decide) (by decide)
    (by decide) (by decide)

/- ### Linear-scan lemmas for a fully-available dataset -/

/-- Splitting a prefix take at a chunk boundary. -/
lemma take_split {α : Type} (L : List α) (cN rN : Nat) :
    (L.take rN).take cN ++ (L.drop rN).take (cN - min cN (L.take rN).length)
      = L.take cN := by
  rw [List.take_take, List.length_take]
  rcases le_total L.length rN with hm | hm
  · rw [List.drop_eq_nil_of_le hm]
    simp only [List.take_nil, List.append_nil]
    rcases le_total cN L.length with hc | hc
    · rw [min_eq_left (le_trans hc hm)]
    · rw [List.take_of_length_le (le_min hc hm), List.take_of_length_le hc]
  · rw [min_eq_left hm]
    rcases le_total cN rN with hc | hc
    · rw [min_eq_left hc]
      simp
    · rw [min_eq_right hc, ← List.take_add]
      congr 1
      omega

/-- The prefix walk over the consecutive `rN`-sized chunks of a list is a
plain prefix of the list, as soon as either the requested count or the whole
list fits in the chunks walked. -/
lemma takeAcrossN_chunks :
    ∀ (k cN rN : Nat) (L : List Artwork), cN ≤ k * rN ∨ L.length ≤ k * rN →
      takeAcrossN cN ((List.range k).map (fun i => (L.drop (i * rN)).take rN))
        = L.take cN := by
  intro k
  induction k with
  | zero =>
    intro cN rN L h
    simp only [List.range_zero, List.map_nil, takeAcrossN]
    rcases h with h | h
    · have hc : cN = 0 := by omega
      simp [hc]
    · have hL : L = [] := List.eq_nil_of_length_eq_zero (by omega)
      simp [hL]
  | succ k ih =>
    intro cN rN L h
    rw [List.range_succ_eq_map, List.map_cons, List.map_map]
    have htail : (List.range k).map ((fun i => (L.drop (i * rN)).take rN) ∘ Nat.succ)
        = (List.range k).map (fun i => ((L.drop rN).drop (i * rN)).take rN) := by
      apply List.map_congr_left
      intro i _
      simp only [Function.comp_apply]
      rw [List.drop_drop, Nat.succ_mul, Nat.add_comm]
    rw [htail]
    simp only [Nat.zero_mul, List.drop_zero, takeAcrossN]
    by_cases hc0 : cN = 0
    · simp [hc0]
    · rw [if_neg hc0]
      have hh : cN - min cN (L.take rN).length ≤ k * rN ∨ (L.drop rN).length ≤ k * rN := by
        rw [List.length_take, List.length_drop, Nat.succ_mul] at *
        omega
      rw [ih _ rN (L.drop rN) hh]
      exact take_split L cN rN

/-- Against the fully-available source, with every cached page consistent with
the dataset, the bulk selector reads every planned page as the corresponding
dataset chunk. -/
lemma lookup_fullNet (ds : List ApiItem) (cache : PageCache) (rows : Int)
    (hcons : ∀ (p : Int) (l : List Artwork), cache p = some l →
        l = mapData ((ds.drop (((p - 1) * rows).toNat)).take rows.toNat))
    (pages : List Int) (p : Int) (hp : p ∈ pages) :
    lookupPageData (prefetchNewCache (fullNet ds) cache rows pages) cache p
      = ((mapData ds).drop (((p - 1) * rows).toNat)).take rows.toNat := by
  simp only [lookupPageData, prefetchNewCache, if_pos hp, taskResult]
  cases hcp : cache p with
  | some l =>
    simp only [hcons p l hcp, mapData, List.map_take, List.map_drop]
  | none =>
    simp only [fullNet, Option.map_some', mapData, List.map_take, List.map_drop]

/-- Counterexample to C1 as stated: requesting 20 rows from page 2 of the
fully-available 24-record dataset selects the 12 records the linear scan from
page 2's offset can reach, not `min(20, totalRecords) = 20`. -/
theorem c1_min_total_counterexample :
    (handleAutoSelect (fullNet ds24) sC1).1.selectedArtworks.length = 12
      ∧ ¬ ((handleAutoSelect (fullNet ds24) sC1).1.selectedArtworks.length
            = min 20 ds24.length) := by
  exact ⟨by decide, by decide⟩

/-- Claim C1 (amended): over a fully-available dataset (every cached page
consistent with it), a bulk select for `c > 0` rows replaces the selection
with the direct linear scan of the dataset from the current page's starting
offset — `min(c, totalRecords - offset)` records in dataset order, which is
`min(c, totalRecords)` records when starting from page 1. -/
theorem c1_bulk_select_linear_scan (ds : List ApiItem) (s : TableState) (c : Int)
    (hsc : s.selectCount = some c) (hc : 0 < c) (hrows : 1 ≤ s.rows)
    (hfirst : 0 ≤ s.first)
    (hcons : ∀ (p : Int) (l : List Artwork), s.pageCache p = some l →
        l = mapData ((ds.drop (((p - 1) * s.rows).toNat)).take s.rows.toNat)) :
    (handleAutoSelect (fullNet ds) s).1.selectedArtworks
      = ((mapData ds).drop ((s.first / s.rows * s.rows).toNat)).take c.toNat := by
  obtain ⟨rN, hrN⟩ : ∃ rN : Nat, s.rows = (rN : Int) :=
    ⟨s.rows.toNat, (Int.toNat_of_nonneg (by omega)).symm⟩
  obtain ⟨qN, hqN⟩ : ∃ qN : Nat, s.first / s.rows = (qN : Int) :=
    ⟨(s.first / s.rows).toNat,
      (Int.toNat_of_nonneg (Int.ediv_nonneg hfirst (by omega))).symm⟩
  have hsel : (handleAutoSelect (fullNet ds) s).1.selectedArtworks
      = assembleLoop
          (prefetchNewCache (fullNet ds) s.pageCache s.rows
            (calculatePagesNeeded s.rows c (s.first / s.rows + 1)))
          s.pageCache (calculatePagesNeeded s.rows c (s.first / s.rows + 1)) c := by
    simp [handleAutoSelect, hsc, if_neg (not_le.mpr hc), bulkSelectCore]
  rw [hsel, assemble_eq_takeAcross _ _ _ c hc,
    calculatePagesNeeded_spec s.rows c (s.first / s.rows + 1) hrows, List.map_map]
  set K := ((c - 1) / s.rows + 1).toNat with hK
  have hrt : s.rows.toNat = rN := by omega
  have hmap : (List.range K).map
        ((lookupPageData
            (prefetchNewCache (fullNet ds) s.pageCache s.rows
              ((List.range K).map (fun (i : Nat) => s.first / s.rows + 1 + (i : Int))))
            s.pageCache)
          ∘ (fun (i : Nat) => s.first / s.rows + 1 + (i : Int)))
      = (List.range K).map
          (fun i => (((mapData ds).drop (qN * rN)).drop (i * rN)).take rN) := by
    apply List.map_congr_left
    intro i hi
    simp only [Function.comp_apply]
    rw [lookup_fullNet ds s.pageCache s.rows hcons _ _ (List.mem_map_of_mem _ hi)]
    have hidx : ((s.first / s.rows + 1 + (i : Int) - 1) * s.rows).toNat
        = qN * rN + i * rN := by
      have hcast : (s.first / s.rows + 1 + (i : Int) - 1) * s.rows
          = ((qN * rN + i * rN : Nat) : Int) := by
        rw [hqN, hrN]
        push_cast
        ring
      rw [hcast]
      omega
    rw [hidx, hrt, List.drop_drop, Nat.add_comm]
  rw [hmap]
  have hqnn : 0 ≤ (c - 1) / s.rows := Int.ediv_nonneg (by omega) (by omega)
  have hKc : (K : Int) = (c - 1) / s.rows + 1 := by omega
  have hcK : c.toNat ≤ K * rN := by
    have hdm := Int.ediv_add_emod (c - 1) s.rows
    have hmlt := Int.emod_lt_of_pos (c - 1) (show (0 : Int) < s.rows by omega)
    have hmnn := Int.emod_nonneg (c - 1) (show s.rows ≠ 0 by omega)
    have hexp : ((c - 1) / s.rows + 1) * s.rows
        = s.rows * ((c - 1) / s.rows) + s.rows := by ring
    have hineq : c ≤ ((c - 1) / s.rows + 1) * s.rows := by omega
    have hcast : ((c - 1) / s.rows + 1) * s.rows = ((K * rN : Nat) : Int) := by
      rw [← hKc, hrN]
      push_cast
      ring
    omega
  rw [takeAcrossN_chunks K c.toNat rN _ (Or.inl hcK)]
  have hoff : (s.first / s.rows * s.rows).toNat = qN * rN := by
    have hcast : s.first / s.rows * s.rows = ((qN * rN : Nat) : Int) := by
      rw [hqN, hrN]
      push_cast
      ring
    rw [hcast]
    omega
  rw [hoff]

/-- Witness for C1 (amended): 2 rows from page 1 of the 3-record dataset at
page size 2. -/
theorem c1_bulk_select_linear_scan_witness :
    (handleAutoSelect (fullNet ds3) sW).1.selectedArtworks
      = ((mapData ds3).drop ((sW.first / sW.rows * sW.rows).toNat)).take (Int.toNat 2) :=
  c1_bulk_select_linear_scan ds3 sW 2 rfl (by decide) (by decide) (by decide)
    (by intro p l h; simp [sW, s0] at h)

end ArtTable
